import Mathlib

/-!
Shallow embedding of `src/file_manager_agent/agent.py` (class `FileManagerAgent`,
method `handle_list_files`).

The method opens a session via the session service, sends one fixed user
message to the agent runtime, drains the stream of response events collecting
non-empty text fragments, and returns the fragments joined by newlines, or
a fixed fallback string when nothing was collected, or a fixed error string
embedding the exception message when session creation or streaming raises.

The external agent runtime (session service + streaming run) is modelled as an
environment record of functions; a Python method that can raise is embedded so
that the str of a raised exception is delivered as a String through
`Except` / the stream outcome. The Python return value is `Option String`
(with none standing for an implicit None); the instance state is threaded
explicitly so frame properties about `store_name_cache` are statable.
-/

namespace AgentPy

/-- Constant `APP_NAME` from the module level of agent.py. -/
def APP_NAME : String := "file_manager"

/-- A content part, as accessed by the code: the hasattr check on the text field and the
value of `part.text` (which may be None). Here `none` models an absent or None
text attribute. -/
structure Part where
  text : Option String
deriving Repr, DecidableEq

/-- Content carried by a message or event: `role` and an optional list of
parts (`content.parts` may be `None` in the genai types). -/
structure Content where
  role : Option String
  parts : Option (List Part)
deriving Repr, DecidableEq

/-- One streamed response event; `event.content` may be `None`. -/
structure Event where
  content : Option Content
deriving Repr, DecidableEq

/-- Session as returned by the session service; the code only reads its id. -/
structure Session where
  id : String
deriving Repr, DecidableEq

/-- Outcome of draining the runner streaming call: either the stream completes
having yielded `events`, or it raises after yielding the events in `yielded`,
with the exception text. -/
inductive StreamOutcome where
  | ok (events : List Event)
  | raised (yielded : List Event) (msg : String)
deriving Repr, DecidableEq

/-- The external collaborators of `handle_list_files`: session creation
(`app_name`, `user_id`, `session_id`) which may raise, and the streaming run
(`user_id`, `session_id`, `new_message`). -/
structure Env where
  create_session : String → String → String → Except String Session
  run_async : String → String → Content → StreamOutcome

/-- Instance state bound in `FileManagerAgent.__init__`: the store display
name and the caller-owned display-name-to-store-name cache (a Python dict,
embedded as an association list). -/
structure FileManagerAgent where
  store_name : String
  store_name_cache : List (String × String)
deriving Repr, DecidableEq

/-- Identifier construction at agent.py line 73: user_id is the string user_ followed by the store name. -/
def user_id (a : FileManagerAgent) : String := "user_" ++ a.store_name

/-- Identifier construction at agent.py line 77: session_id is the string list_files_ followed by the store name. -/
def session_id (a : FileManagerAgent) : String := "list_files_" ++ a.store_name

/-- Fixed user prompt from agent.py line 81. -/
def user_prompt : String := "請列出所有已上傳的檔案"

/-- Message built at agent.py lines 82-85: a Content with role user and a
single Part whose text is the fixed user prompt. -/
def user_message : Content :=
  { role := some "user", parts := some [{ text := some user_prompt }] }

/-- The fallback returned when no text was collected (agent.py line 103). -/
def noFilesMsg : String := "目前沒有找到任何檔案唷！"

/-- Fixed head of the error return at agent.py line 109; the returned error
string is this head followed by str(e). -/
def errHead : String := "查詢檔案時發生了一點問題："

/-- Test at agent.py line 96 (hasattr and truthiness of the text field): keep
the text when the attribute is present, not None and truthy (non-empty). -/
def partText (p : Part) : Option String :=
  match p.text with
  | some t => if t = "" then none else some t
  | none => none

/-- Texts one event contributes (agent.py lines 94-97): guarded by
the truthiness of event.content and event.content.parts (content not None,
parts not None and non-empty), then each truthy part text in order. -/
def eventTexts (e : Event) : List String :=
  match e.content with
  | none => []
  | some c =>
    match c.parts with
    | none => []
    | some ps => if ps = [] then [] else ps.filterMap partText

/-- Accumulator loop of agent.py lines 88-97 (append to response_texts for
each event) over a list of yielded events. -/
def collectTexts (events : List Event) : List String :=
  events.foldl (fun acc e => acc ++ eventTexts e) []

/-- Method handle_list_files of FileManagerAgent (agent.py lines 64-109). Returns the
Python return value (`Option String`, `none` standing for `None`) and the
instance state after the call. -/
def handle_list_files (a : FileManagerAgent) (env : Env) :
    Option String × FileManagerAgent :=
  match env.create_session APP_NAME (user_id a) (session_id a) with
  | .error e => (some (errHead ++ e), a)
  | .ok session =>
    match env.run_async (user_id a) session.id user_message with
    | .raised _ e => (some (errHead ++ e), a)
    | .ok events =>
      let response_texts := collectTexts events
      if response_texts ≠ [] then
        (some (String.intercalate "\n" response_texts), a)
      else
        (some noFilesMsg, a)

/-- Unfolding lemma: the loop accumulator is the concatenation of the
per-event contributions, in order. -/
theorem collectTexts_eq_join (events : List Event) :
    collectTexts events = (events.map eventTexts).flatten := by
  suffices h : ∀ acc : List String,
      events.foldl (fun acc e => acc ++ eventTexts e) acc
        = acc ++ (events.map eventTexts).flatten by
    simpa [collectTexts] using h []
  induction events with
  | nil => intro acc; simp
  | cons e es ih =>
    intro acc
    simp [List.foldl, ih, List.append_assoc]

/-- Characterisation of the truthiness test: a text is kept exactly when the
attribute holds it and it is non-empty. -/
theorem partText_eq_some (p : Part) (t : String) :
    partText p = some t ↔ p.text = some t ∧ t ≠ "" := by
  rcases p with ⟨txt⟩
  rcases txt with _ | u
  · simp [partText]
  · by_cases h : u = "" <;> simp [partText, h] <;> rintro rfl <;> simp [h]

/-- Characterisation of the per-event extraction: a text is contributed exactly
when the event carries content with a non-empty part list and some part holds
that text, non-empty. -/
theorem mem_eventTexts (e : Event) (t : String) :
    t ∈ eventTexts e ↔
      ∃ c, e.content = some c ∧ ∃ ps, c.parts = some ps ∧ ps ≠ [] ∧
        ∃ p ∈ ps, p.text = some t ∧ t ≠ "" := by
  rcases e with ⟨content⟩
  rcases content with _ | c
  · simp [eventTexts]
  · rcases c with ⟨role, parts⟩
    rcases parts with _ | ps
    · simp [eventTexts]
    · by_cases h : ps = []
      · subst h; simp [eventTexts]
      · simp only [eventTexts, if_neg h, List.mem_filterMap, partText_eq_some,
          Option.some.injEq]
        constructor
        · rintro ⟨p, hp, ht, hne⟩
          exact ⟨⟨role, some ps⟩, rfl, ps, rfl, h, p, hp, ht, hne⟩
        · rintro ⟨c, hc, ps2, hps, -, p, hp, ht, hne⟩
          cases hc
          cases hps
          exact ⟨p, hp, ht, hne⟩

/-- Fixed sample agent used by the concrete witnesses: the end-to-end scenario
store docs with cache entry docs to store_123. -/
def sampleAgent : FileManagerAgent :=
  { store_name := "docs", store_name_cache := [("docs", "store_123")] }

/-- A second sample agent with a different store name and an empty cache. -/
def otherAgent : FileManagerAgent :=
  { store_name := "pics", store_name_cache := [] }

/-- A session service that always succeeds, echoing the requested session id. -/
def okSessionSvc : String → String → String → Except String Session :=
  fun _ _ sid => .ok { id := sid }

/-- Environment whose session creation succeeds and whose streaming run always
produces the given outcome. -/
def envOfStream (r : StreamOutcome) : Env :=
  { create_session := okSessionSvc, run_async := fun _ _ _ => r }

/-- Environment whose session creation raises with the given message. -/
def envSessionFail (msg : String) : Env :=
  { create_session := fun _ _ _ => .error msg, run_async := fun _ _ _ => .ok [] }

/-- An event carrying one content with one non-empty text part per string. -/
def mkTextEvent (ts : List String) : Event :=
  { content := some { role := some "model",
                      parts := some (ts.map fun t => { text := some t }) } }

/-- Joining three strings with the newline separator. -/
theorem intercalate_three (sep x y z : String) :
    String.intercalate sep [x, y, z] = x ++ sep ++ y ++ sep ++ z := by
  simp [String.intercalate, String.intercalate.go, String.append_assoc]

/-- C1: on every path (successful stream, empty stream, or an exception raised
during session creation or streaming) handle_list_files returns a string and
never returns None. -/
theorem handle_list_files_always_some (a : FileManagerAgent) (env : Env) :
    (handle_list_files a env).1.isSome := by
  cases h1 : env.create_session APP_NAME (user_id a) (session_id a) with
  | error e => simp [handle_list_files, h1]
  | ok s =>
    cases h2 : env.run_async (user_id a) s.id user_message with
    | ok events =>
      by_cases h3 : collectTexts events = [] <;>
        simp [handle_list_files, h1, h2, h3]
    | raised y e => simp [handle_list_files, h1, h2]

/-- C2: every exception raised during session creation or during the streaming
run is caught at the top-level boundary and turned into the returned string
consisting of the fixed text 查詢檔案時發生了一點問題： followed by the
exception message; the exception is never propagated (a string is always
returned). -/
theorem handle_list_files_error_string (a : FileManagerAgent) (env : Env)
    (msg : String)
    (h : env.create_session APP_NAME (user_id a) (session_id a) = .error msg ∨
      ∃ s yielded,
        env.create_session APP_NAME (user_id a) (session_id a) = .ok s ∧
        env.run_async (user_id a) s.id user_message = .raised yielded msg) :
    (handle_list_files a env).1 = some (errHead ++ msg) := by
  rcases h with h1 | ⟨s, yielded, h1, h2⟩
  · simp [handle_list_files, h1]
  · simp [handle_list_files, h1, h2]

/-- Witness for C2 at a concrete failing session creation. -/
theorem handle_list_files_error_string_witness :
    (handle_list_files sampleAgent (envSessionFail "boom")).1
      = some (errHead ++ "boom") :=
  handle_list_files_error_string sampleAgent (envSessionFail "boom") "boom"
    (Or.inl rfl)

/-- C3: when the stream completes without exception, an empty accumulator
yields exactly the fixed fallback string and a non-empty accumulator yields the
entries joined with newline separators. -/
theorem handle_list_files_join_or_fallback (a : FileManagerAgent) (env : Env)
    (s : Session) (events : List Event)
    (h1 : env.create_session APP_NAME (user_id a) (session_id a) = .ok s)
    (h2 : env.run_async (user_id a) s.id user_message = .ok events) :
    (collectTexts events = [] →
      (handle_list_files a env).1 = some noFilesMsg) ∧
    (collectTexts events ≠ [] →
      (handle_list_files a env).1
        = some (String.intercalate "\n" (collectTexts events))) := by
  constructor <;> intro h3 <;> simp [handle_list_files, h1, h2, h3]

/-- Witness for C3 at a concrete empty stream. -/
theorem handle_list_files_join_or_fallback_witness :
    (handle_list_files sampleAgent (envOfStream (.ok []))).1
      = some noFilesMsg :=
  (handle_list_files_join_or_fallback sampleAgent (envOfStream (.ok []))
    { id := session_id sampleAgent } [] rfl rfl).1 rfl

/-- C4: fragment order is preserved within each event and across events: when
the runtime yields two events whose text fragments are the singleton x and the
pair y, z, the joined result is x, newline, y, newline, z. -/
theorem handle_list_files_order (a : FileManagerAgent) (env : Env)
    (s : Session) (e1 e2 : Event) (x y z : String)
    (h1 : env.create_session APP_NAME (user_id a) (session_id a) = .ok s)
    (h2 : env.run_async (user_id a) s.id user_message = .ok [e1, e2])
    (hx : eventTexts e1 = [x]) (hyz : eventTexts e2 = [y, z]) :
    (handle_list_files a env).1 = some (x ++ "\n" ++ y ++ "\n" ++ z) := by
  have hc : collectTexts [e1, e2] = [x, y, z] := by
    simp [collectTexts_eq_join, hx, hyz]
  simp [handle_list_files, h1, h2, hc, intercalate_three]

/-- Witness for C4: events with fragments a and b, c join to a, newline, b,
newline, c. -/
theorem handle_list_files_order_witness :
    (handle_list_files sampleAgent
        (envOfStream (.ok [mkTextEvent ["a"], mkTextEvent ["b", "c"]]))).1
      = some ("a" ++ "\n" ++ "b" ++ "\n" ++ "c") :=
  handle_list_files_order sampleAgent
    (envOfStream (.ok [mkTextEvent ["a"], mkTextEvent ["b", "c"]]))
    { id := session_id sampleAgent }
    (mkTextEvent ["a"]) (mkTextEvent ["b", "c"]) "a" "b" "c"
    rfl rfl (by decide) (by decide)

/-- C5: a text is appended to the accumulator for a stream of events exactly
when some event carries content with one or more parts and one of those parts
holds that text and the text is non-empty; parts with absent or empty text
contribute nothing. -/
theorem mem_collectTexts_iff (events : List Event) (t : String) :
    t ∈ collectTexts events ↔
      ∃ e ∈ events, ∃ c, e.content = some c ∧
        ∃ ps, c.parts = some ps ∧ ps ≠ [] ∧
          ∃ p ∈ ps, p.text = some t ∧ t ≠ "" := by
  rw [collectTexts_eq_join, List.mem_flatten]
  constructor
  · rintro ⟨l, hl, ht⟩
    rcases List.mem_map.mp hl with ⟨e, he, rfl⟩
    exact ⟨e, he, (mem_eventTexts e t).mp ht⟩
  · rintro ⟨e, he, hrest⟩
    exact ⟨eventTexts e, List.mem_map.mpr ⟨e, he, rfl⟩,
      (mem_eventTexts e t).mpr hrest⟩

/-- Environment whose streaming run raises with message boom after yielding
one event carrying the fragment boom. -/
def envMidFail : Env :=
  { create_session := okSessionSvc,
    run_async := fun _ _ _ => .raised [mkTextEvent ["boom"]] "boom" }

/-- C6 counterexample: an execution ending in the error path in which an
already-accumulated fragment (boom, yielded before the exception whose message
is also boom) IS contained in the returned error string, refuting the stated
non-containment. -/
theorem handle_list_files_error_keeps_fragment_text :
    "boom" ∈ collectTexts [mkTextEvent ["boom"]] ∧
    (handle_list_files sampleAgent envMidFail).1 = some (errHead ++ "boom") ∧
    ∃ pre post : String, errHead ++ "boom" = pre ++ "boom" ++ post :=
  ⟨by decide, rfl, errHead, "", by simp⟩

/-- C6 (amended): on the error path the accumulated fragments are discarded in
the sense that they never influence the result: whatever events were already
yielded, the returned string is determined solely by the exception message,
namely the fixed error head followed by that message. -/
theorem handle_list_files_error_discards_accumulated
    (a : FileManagerAgent) (env : Env) (s : Session) (yielded : List Event)
    (msg : String)
    (h1 : env.create_session APP_NAME (user_id a) (session_id a) = .ok s)
    (h2 : env.run_async (user_id a) s.id user_message = .raised yielded msg) :
    (handle_list_files a env).1 = some (errHead ++ msg) := by
  simp [handle_list_files, h1, h2]

/-- Witness for the amended C6 at a concrete mid-stream failure. -/
theorem handle_list_files_error_discards_accumulated_witness :
    (handle_list_files sampleAgent envMidFail).1 = some (errHead ++ "boom") :=
  handle_list_files_error_discards_accumulated sampleAgent envMidFail
    { id := session_id sampleAgent } [mkTextEvent ["boom"]] "boom" rfl rfl

/-- C7: handle_list_files neither mutates nor invalidates the cache bound at
construction time: after the call the instance state, in particular the
store_name_cache mapping, is unchanged. -/
theorem handle_list_files_preserves_cache (a : FileManagerAgent) (env : Env) :
    (handle_list_files a env).2.store_name_cache = a.store_name_cache := by
  cases h1 : env.create_session APP_NAME (user_id a) (session_id a) with
  | error e => simp [handle_list_files, h1]
  | ok s =>
    cases h2 : env.run_async (user_id a) s.id user_message with
    | ok events =>
      by_cases h3 : collectTexts events = [] <;>
        simp [handle_list_files, h1, h2, h3]
    | raised y e => simp [handle_list_files, h1, h2]

/-- C8: the user identifier and session identifier are derived
deterministically and solely from the store name: they are the fixed texts
user_ and list_files_ followed by the store name, so any two instances with
equal store names construct identical identifiers. -/
theorem ids_deterministic (a1 a2 : FileManagerAgent)
    (h : a1.store_name = a2.store_name) :
    user_id a1 = "user_" ++ a1.store_name ∧
    session_id a1 = "list_files_" ++ a1.store_name ∧
    user_id a1 = user_id a2 ∧ session_id a1 = session_id a2 := by
  simp [user_id, session_id, h]

/-- Witness for C8: two instances with the same store name but different
caches construct the same identifiers. -/
theorem ids_deterministic_witness :
    user_id sampleAgent = "user_" ++ sampleAgent.store_name ∧
    session_id sampleAgent = "list_files_" ++ sampleAgent.store_name ∧
    user_id sampleAgent
      = user_id { store_name := "docs", store_name_cache := [] } ∧
    session_id sampleAgent
      = session_id { store_name := "docs", store_name_cache := [] } :=
  ids_deterministic sampleAgent
    { store_name := "docs", store_name_cache := [] } rfl

/-- C10: the successful-path output depends only on the event sequence: two
runs on any instances and environments that complete their streams with the
same events return the same string, regardless of store name or cache. -/
theorem handle_list_files_success_deterministic
    (a1 a2 : FileManagerAgent) (env1 env2 : Env) (s1 s2 : Session)
    (events : List Event)
    (h1 : env1.create_session APP_NAME (user_id a1) (session_id a1) = .ok s1)
    (h2 : env1.run_async (user_id a1) s1.id user_message = .ok events)
    (h3 : env2.create_session APP_NAME (user_id a2) (session_id a2) = .ok s2)
    (h4 : env2.run_async (user_id a2) s2.id user_message = .ok events) :
    (handle_list_files a1 env1).1 = (handle_list_files a2 env2).1 := by
  by_cases h : collectTexts events = [] <;>
    simp [handle_list_files, h1, h2, h3, h4, h]

/-- Witness for C10: two instances with different store names and caches,
fed the same one-event stream, return the same string. -/
theorem handle_list_files_success_deterministic_witness :
    (handle_list_files sampleAgent
        (envOfStream (.ok [mkTextEvent ["hello"]]))).1
      = (handle_list_files otherAgent
          (envOfStream (.ok [mkTextEvent ["hello"]]))).1 :=
  handle_list_files_success_deterministic sampleAgent otherAgent
    (envOfStream (.ok [mkTextEvent ["hello"]]))
    (envOfStream (.ok [mkTextEvent ["hello"]]))
    { id := session_id sampleAgent } { id := session_id otherAgent }
    [mkTextEvent ["hello"]] rfl rfl rfl rfl

end AgentPy
